import Mathlib

/-!
Shallow embedding of `kube-grpc` (`src/src/main.go`), a Go library that maintains
pools of gRPC connections to the pods backing a Kubernetes service.

Modelling conventions:
* gRPC client handles (Go `interface{}` values returned by `NewGrpcClient`) and raw
  dialed connections (`*grpc.ClientConn`) are opaque and modelled as `Nat` ids.
  A failed `grpc.Dial` leaves the raw connection `nil`, modelled as `none`.
* The global mutable map `connectionCache : map[string]*connection` is modelled as an
  association list threaded explicitly through each operation; map assignment is
  `cacheInsert`, map lookup (returning `nil` for an absent key) is `cacheLookup`.
* `log.Fatal` (process termination) and nil-pointer / index-out-of-range panics are
  modelled as explicit `crashed` / `panicked` outcomes.
* `rand.Int31n n` returns a uniformly distributed value in `[0, n)` and panics when
  `n <= 0`; it is modelled by an oracle `r : Nat` supplied to `Connect`, the drawn
  index being `r % n` when `n > 0` and a panic outcome otherwise.
* A send on the unbuffered `dirtyConnections` channel while no receiver is active
  blocks forever; `healthCheck` therefore returns `none` (the cycle never completes)
  as soon as one send happens, and `some ds` with the list the later
  `cleanConnections` call can drain otherwise.
-/

/-- `strings.Contains` helper: does the character list start with `sub`? -/
def beginsWith : List Char → List Char → Bool
  | [], _ => true
  | _ :: _, [] => false
  | c :: cs, d :: ds => c == d && beginsWith cs ds

/-- Does `hay` contain `sub` as a contiguous run? -/
def containsList (sub : List Char) : List Char → Bool
  | [] => beginsWith sub []
  | h :: t => beginsWith sub (h :: t) || containsList sub t

/-- Go `strings.Contains hay sub`. -/
def strContains (hay sub : String) : Bool := containsList sub.toList hay.toList

/-- Interface `GrpcKubeBalancer`: the caller-supplied capability.
`NewGrpcClient` receives the raw connection produced by `grpc.Dial` (`none` when the
dial failed and the raw connection is `nil`) and returns an application-level client
handle or an error; `Ping` is the liveness probe on a handle. -/
structure GrpcKubeBalancer where
  newGrpcClient : Option Nat → Except Unit Nat
  ping : Nat → Except Unit Unit

/-- Struct `grpcConnection`: one pooled connection.
`grpcConn` is the field `grpcConnection interface{}` (the client handle);
`nspace` is the field `namespace` (a Lean keyword). -/
structure grpcConnection where
  grpcConn : Nat
  connectionIP : String
  serviceName : String
  nspace : String
deriving DecidableEq, Inhabited, Repr

/-- Struct `connection`: the per-service pool.
`nConnections` is `int32` in the source; the values reached here are small, so `Int`
without an explicit wraparound is an exact model. -/
structure connection where
  nConnections : Int
  functions : GrpcKubeBalancer
  grpcConnection : List grpcConnection

/-- A Kubernetes service as far as the code reads it: its name (matched with
`strings.Contains`) identifies it to the pod lister. -/
structure Service where
  name : String
deriving DecidableEq, Repr

/-- A pod as far as the code reads it: `pod.Status.PodIP`. -/
structure Pod where
  podIP : String
deriving DecidableEq, Repr

/-- The external world used by discovery: the Kubernetes API client (`clientset`)
and `grpc.Dial`.  `listServices ns` is `k8sClient.Services(ns).List`;
`podsForSvc svc ns` is `k8sClient.Pods(ns).List` filtered by the service's selector
(a call whose error `updateConnectionPool` discards); `dial ip` is
`grpc.Dial(ip, grpc.WithInsecure())`, `none` modelling a dial error (nil conn). -/
structure Env where
  listServices : String → Except Unit (List Service)
  podsForSvc : Service → String → List Pod
  dial : String → Option Nat

/-- The global `connectionCache` map. -/
abbrev ConnectionCache := List (String × connection)

/-- Map lookup: `connectionCache[s]`, `none` when absent (Go returns `nil`). -/
def cacheLookup : ConnectionCache → String → Option connection
  | [], _ => none
  | (k, v) :: t, s => if k = s then some v else cacheLookup t s

/-- Map assignment: `connectionCache[s] = c`. -/
def cacheInsert : ConnectionCache → String → connection → ConnectionCache
  | [], s, c => [(s, c)]
  | (k, v) :: t, s, c => if k = s then (s, c) :: t else (k, v) :: cacheInsert t s c

/-- Outcome of `getService`.  On a list error the source calls `log.Fatal`
(process exit), modelled as `fatal`; when no service name contains `serviceName`
it returns `(nil, errors.New("cannot find service"))`, modelled as `notFound`. -/
inductive GetServiceResult where
  | fatal
  | ok (svc : Service)
  | notFound
deriving DecidableEq, Repr

/-- `getService`: lists the services of the namespace and returns the first whose
name contains `serviceName`. -/
def getService (serviceName nspace : String) (env : Env) : GetServiceResult :=
  match env.listServices nspace with
  | .error _ => .fatal
  | .ok svcs =>
    match svcs.find? (fun svc => strContains svc.name serviceName) with
    | some svc => .ok svc
    | none => .notFound

/-- Outcome of a populate step: `crashed` covers both the `log.Fatal` inside
`getService` and the nil-pointer panic in `getPodsForSvc` when `getService`
returned `nil` (its error is discarded by `updateConnectionPool`, which then passes
the nil service to `getPodsForSvc`, which dereferences `svc.Spec.Selector`). -/
inductive PopulateResult where
  | crashed
  | ok (c : connection)

/-- The per-pod body of the loop in `updateConnectionPool`.
The duplicate-IP check
`for _, p := range currentCache.grpcConnection { if p.connectionIP == pod.Status.PodIP { continue } }`
has no effect: its `continue` advances the inner scan itself, and control always
falls through to the dial, so it is (faithfully) absent here.
`conn, err := grpc.Dial(...)` has its `err` immediately shadowed by
`grpcConn, err := currentCache.functions.NewGrpcClient(conn)`: only the
`NewGrpcClient` error is ever tested, so a pod is skipped exactly when
`newGrpcClient (dial ip)` fails. -/
def addPod (serviceName nspace : String) (env : Env) (cache : connection) (pod : Pod) :
    connection :=
  match cache.functions.newGrpcClient (env.dial pod.podIP) with
  | .error _ => cache
  | .ok h =>
    { cache with
      nConnections := cache.nConnections + 1
      grpcConnection := cache.grpcConnection ++
        [{ grpcConn := h, connectionIP := pod.podIP, serviceName := serviceName,
           nspace := nspace }] }

/-- `updateConnectionPool`: discovery + populate.  It discards `getService`'s error:
with a `nil` service, `getPodsForSvc` panics; a list error never returns at all
(`log.Fatal`).  Otherwise it folds the per-pod insertion over the pod list. -/
def updateConnectionPool (serviceName nspace : String) (env : Env)
    (currentCache : connection) : PopulateResult :=
  match getService serviceName nspace env with
  | .fatal => .crashed
  | .notFound => .crashed
  | .ok svc =>
      .ok ((env.podsForSvc svc nspace).foldl (addPod serviceName nspace env) currentCache)

/-- `getConnectionPool`: returns the cached pool, or creates an empty one, stores it,
and populates it.  The Go cache stores a pointer, so the populate's mutations are
visible through the map; here the updated pool is written back explicitly. -/
def getConnectionPool (serviceName nspace : String) (f : GrpcKubeBalancer) (env : Env)
    (cc : ConnectionCache) : PopulateResult × ConnectionCache :=
  match cacheLookup cc serviceName with
  | some c => (.ok c, cc)
  | none =>
    let c : connection := { nConnections := 0, functions := f, grpcConnection := [] }
    let cc1 := cacheInsert cc serviceName c
    match updateConnectionPool serviceName nspace env c with
    | .crashed => (.crashed, cc1)
    | .ok c2 => (.ok c2, cacheInsert cc1 serviceName c2)

/-- What a `Connect` call does.  `handle gc` is `return grcpConn, nil` (the source
returns the `*grpcConnection` struct, whose `grpcConnection` field holds the client
handle); `nilNil` is the `return nil, nil` taken whenever the pool already exists;
`panicked` is the `rand.Int31n(n)` panic for `n <= 0` or an out-of-range index;
`crashed` propagates a populate crash. -/
inductive ConnectResult where
  | handle (gc : grpcConnection)
  | nilNil
  | panicked
  | crashed
deriving DecidableEq, Repr

/-- `Connect`: the public entry point.  `r` is the oracle for `rand.Int31n`. -/
def Connect (serviceName nspace : String) (f : GrpcKubeBalancer) (env : Env) (r : Nat)
    (cc : ConnectionCache) : ConnectResult × ConnectionCache :=
  match cacheLookup cc serviceName with
  | some _ => (.nilNil, cc)
  | none =>
    match getConnectionPool serviceName nspace f env cc with
    | (.crashed, cc1) => (.crashed, cc1)
    | (.ok conn, cc1) =>
      if conn.nConnections ≤ 0 then (.panicked, cc1)
      else
        match conn.grpcConnection.get? (r % conn.nConnections.toNat) with
        | some gc => (.handle gc, cc1)
        | none => (.panicked, cc1)

/-- The inner loop of `cleanConnections` for one dead connection `v`: find the first
slot `k` holding `v` (the source compares pointers; dead connections are reported
from the pool itself, so the first structurally equal entry is that slot), decrement
`nConnections`, overwrite `a[k]` with `a[len(a)-1]` — and stop.  The truncation
`a = a[:len(a)-1]` reassigns only the local slice header `a`, never
`conns.grpcConnection`, so the stored slice keeps its original length. -/
def evictDead (c : connection) (v : grpcConnection) : connection :=
  match c.grpcConnection.findIdx? (fun gc => gc == v) with
  | none => c
  | some k =>
    let a := c.grpcConnection
    { c with
      nConnections := c.nConnections - 1
      grpcConnection := a.set k (a.getD (a.length - 1) default) }

/-- `cleanConnections`: evict every reported-dead connection, then re-run discovery
once per affected service (the `updateList` map deduplicates services; it stores the
pool pointer, so the re-populate sees the post-eviction pool).  `none` models a
crash: a dead connection naming an uncached service makes the final loop dereference
a nil pool, `v.grpcConnection[0]` panics on an empty pool, and a discovery crash
propagates. -/
def cleanConnections (dirty : List grpcConnection) (env : Env) (cc : ConnectionCache) :
    Option ConnectionCache := do
  let st ← dirty.foldlM
    (fun (st : ConnectionCache × List String) v => do
      let conns ← cacheLookup st.1 v.serviceName
      pure (cacheInsert st.1 v.serviceName (evictDead conns v),
            if v.serviceName ∈ st.2 then st.2 else st.2 ++ [v.serviceName]))
    (cc, ([] : List String))
  st.2.foldlM
    (fun cc2 s => do
      let conns ← cacheLookup cc2 s
      let first ← conns.grpcConnection.get? 0
      match updateConnectionPool s first.nspace env conns with
      | .crashed => none
      | .ok c2 => pure (cacheInsert cc2 s c2))
    st.1

/-- The connections whose `Ping` fails, in iteration order, over the whole cache. -/
def deadConnections (cc : ConnectionCache) : List grpcConnection :=
  cc.foldl
    (fun acc kv =>
      acc ++ kv.2.grpcConnection.filter
        (fun c => match kv.2.functions.ping c.grpcConn with
          | .error _ => true
          | .ok _ => false))
    []

/-- `healthCheck`'s single pass: ping every connection of every pool, pushing each
failure into the unbuffered `dirtyConnections` channel.  No receiver is active
during the pass, so the first such send blocks forever (`none`); with no failures
the channel is closed empty and `cleanConnections` is started on it (`some []`). -/
def healthCheck (cc : ConnectionCache) : Option (List grpcConnection) :=
  match deadConnections cc with
  | [] => some []
  | _ :: _ => none

/-- One step of a background goroutine, for the control-flow model of
`healthCheck` and `updatePool`. -/
inductive LoopAction where
  | sleep (seconds : Nat)
  | probeCycle
  | fullScanCycle
deriving DecidableEq, Repr

/-- The statement sequence of `healthCheck`: `time.Sleep(time.Second)`, one probe
pass over the cache, return.  The function body contains no loop. -/
def healthCheckTrace : List LoopAction := [LoopAction.sleep 1, LoopAction.probeCycle]

/-- The statement sequence of `updatePool`: `time.Sleep(time.Minute)`, one full
scan over the cache, return.  The function body contains no loop. -/
def updatePoolTrace : List LoopAction := [LoopAction.sleep 60, LoopAction.fullScanCycle]

/-- A capability whose client construction always succeeds (handle = raw conn id,
0 for a nil conn) and whose probe always succeeds. -/
def okCap : GrpcKubeBalancer :=
  { newGrpcClient := fun c => match c with | some k => .ok k | none => .ok 0
    ping := fun _ => .ok () }

/-- A capability whose probe always fails. -/
def deadCap : GrpcKubeBalancer :=
  { newGrpcClient := fun c => match c with | some k => .ok k | none => .ok 0
    ping := fun _ => .error () }

/-- A capability that builds a client (handle 10) only from raw conn 0 and rejects
every other raw conn. -/
def capSel : GrpcKubeBalancer :=
  { newGrpcClient := fun c => match c with | some 0 => .ok 10 | _ => .error ()
    ping := fun _ => .ok () }

/-- A pooled connection to IP `a` of service `s`. -/
def gA : grpcConnection :=
  { grpcConn := 10, connectionIP := "a", serviceName := "s", nspace := "ns" }

/-- A pooled connection to IP `b` of service `s`. -/
def gB : grpcConnection :=
  { grpcConn := 11, connectionIP := "b", serviceName := "s", nspace := "ns" }

/-- A pool holding only `gA`. -/
def poolA : connection :=
  { nConnections := 1, functions := okCap, grpcConnection := [gA] }

/-- A pool holding `gA` and `gB`. -/
def poolAB : connection :=
  { nConnections := 2, functions := okCap, grpcConnection := [gA, gB] }

/-- A pool holding `gA` whose capability's probe fails. -/
def poolDeadA : connection :=
  { nConnections := 1, functions := deadCap, grpcConnection := [gA] }

/-- The service named `s`. -/
def svcS : Service := { name := "s" }

/-- A directory that finds service `s` with zero pods; every dial succeeds. -/
def envEmpty : Env :=
  { listServices := fun _ => .ok [svcS], podsForSvc := fun _ _ => [],
    dial := fun _ => some 0 }

/-- A directory that finds service `s` with the single pod `a`. -/
def envA : Env :=
  { listServices := fun _ => .ok [svcS], podsForSvc := fun _ _ => [{ podIP := "a" }],
    dial := fun _ => some 0 }

/-- A directory that finds service `s` with pods `a` and `b`; dialing `a` yields raw
conn 0, dialing `b` yields raw conn 1. -/
def envAB : Env :=
  { listServices := fun _ => .ok [svcS],
    podsForSvc := fun _ _ => [{ podIP := "a" }, { podIP := "b" }],
    dial := fun ip => if ip = "a" then some 0 else some 1 }

/-- A directory whose service-list call fails (unreachable). -/
def envDown : Env :=
  { listServices := fun _ => .error (), podsForSvc := fun _ _ => [],
    dial := fun _ => none }

/-- A directory that lists no services at all (service not found). -/
def envNoSvc : Env :=
  { listServices := fun _ => .ok [], podsForSvc := fun _ _ => [],
    dial := fun _ => none }

/-- The pool `poolA` after `updateConnectionPool` under `envA`: the broken duplicate
check lets a second connection to IP `a` in. -/
def poolADup : connection :=
  { nConnections := 2, functions := okCap,
    grpcConnection :=
      [gA, { grpcConn := 0, connectionIP := "a", serviceName := "s", nspace := "ns" }] }

/-- Claim C1: refuted.  With a non-empty pool already cached for `s` (one live
member `gA`), `Connect` takes the `currentCache != nil` branch and returns
`nil, nil` without performing any selection, instead of a handle. -/
theorem Connect_nil_nil_on_existing_pool :
    (Connect "s" "ns" okCap envA 0 [("s", poolA)]).1 = ConnectResult.nilNil := rfl

/-- Claim C2: refuted.  When discovery finds the service but zero endpoints, the
freshly created pool has `nConnections = 0` and `Connect` immediately evaluates
`rand.Int31n(0)`, which panics; no `NoAvailableEndpoints` error exists in the code. -/
theorem Connect_panics_on_zero_endpoints :
    (Connect "s" "ns" okCap envEmpty 0 []).1 = ConnectResult.panicked := rfl

/-- Claim C3: refuted.  Pool `[gA, gB]` with `gB` reported dead: eviction overwrites
slot `k` with the last element and truncates only a local slice header, so the
stored collection is still `[gA, gB]` — the dead entry is still observable and the
size did not decrease — while `nConnections` drops to 1. -/
theorem cleanConnections_keeps_dead_entry :
    ∃ cc1 c, cleanConnections [gB] envEmpty [("s", poolAB)] = some cc1 ∧
      cacheLookup cc1 "s" = some c ∧
      c.grpcConnection = [gA, gB] ∧ c.nConnections = 1 :=
  ⟨_, _, rfl, rfl, rfl, rfl⟩

/-- Claim C4: refuted.  The pool already holds a connection to IP `a`, discovery
returns the same IP `a`, every dial and client construction succeeds — and the pool
ends up with two entries for address `a`, because the duplicate-check loop's
`continue` targets the inner loop and the check never skips a pod. -/
theorem updateConnectionPool_inserts_duplicate_address :
    ∃ c, updateConnectionPool "s" "ns" envA poolA = PopulateResult.ok c ∧
      (c.grpcConnection.filter (fun gc => gc.connectionIP == "a")).length = 2 :=
  ⟨_, rfl, rfl⟩

/-- Claim C5: refuted.  An unreachable directory makes `getService` call
`log.Fatal` (process exit), and a not-found service has its error discarded by
`updateConnectionPool`, which then passes the nil service to `getPodsForSvc`, which
panics; either way the populate crashes instead of logging and retrying. -/
theorem updateConnectionPool_crashes_on_directory_failure :
    updateConnectionPool "s" "ns" envDown poolA = PopulateResult.crashed ∧
    updateConnectionPool "s" "ns" envNoSvc poolA = PopulateResult.crashed :=
  ⟨rfl, rfl⟩

/-- Claim C6: refuted.  With a single pool whose single connection fails its probe,
the cycle's first send on the unbuffered `dirtyConnections` channel has no active
receiver and blocks forever, so the cycle never completes (`none`); a cycle with no
failures does complete, but hands `cleanConnections` the empty set. -/
theorem healthCheck_blocks_on_probe_failure :
    healthCheck [("s", poolDeadA)] = none ∧ healthCheck [("s", poolA)] = some [] :=
  ⟨rfl, rfl⟩

/-- Claim C7: refuted.  The bodies of `healthCheck` and `updatePool` contain no
loop: each sleeps once (1 s resp. 60 s), performs exactly one cycle, and returns,
so neither background task repeats its cycle on every interval tick. -/
theorem background_loops_cycle_once :
    healthCheckTrace.count LoopAction.probeCycle = 1 ∧
    updatePoolTrace.count LoopAction.fullScanCycle = 1 := by decide

/-- Claim C8: partially refuted.  Directory returns N = 2 endpoints `{a, b}`,
client construction fails for `b` (k = 1): the populate skips `b`, the pool ends
with N − k = 1 connection, and the `Connect` call that triggered the populate
returns `a`'s entry — but the subsequent `Connect` call returns `nil, nil` instead
of succeeding. -/
theorem second_connect_nil_after_partial_populate :
    ∃ cc1, (Connect "s" "ns" capSel envAB 0 []).2 = cc1 ∧
      (Connect "s" "ns" capSel envAB 0 []).1 =
        ConnectResult.handle
          { grpcConn := 10, connectionIP := "a", serviceName := "s", nspace := "ns" } ∧
      (∃ c, cacheLookup cc1 "s" = some c ∧
        c.grpcConnection.length = 1 ∧ c.nConnections = 1) ∧
      (Connect "s" "ns" capSel envAB 0 cc1).1 = ConnectResult.nilNil :=
  ⟨_, rfl, rfl, ⟨_, rfl, rfl, rfl⟩, rfl⟩

/-- Claim C9: refuted.  Pool `[gA, gB]` with `gA` evicted: `nConnections` is
decremented to 1, but the stored slice — its truncation lost to a local slice
header — becomes `[gB, gB]` of length 2, so the count and the length diverge. -/
theorem nConnections_diverges_from_slice_length :
    ∃ cc1 c, cleanConnections [gA] envEmpty [("s", poolAB)] = some cc1 ∧
      cacheLookup cc1 "s" = some c ∧
      c.nConnections = 1 ∧ c.grpcConnection.length = 2 :=
  ⟨_, _, rfl, rfl, rfl, rfl⟩

/-- Auxiliary: one `addPod` step only ever appends to the pool's collection. -/
theorem addPod_appends_aux (s n : String) (env : Env) (c : connection) (p : Pod) :
    ∃ t, (addPod s n env c p).grpcConnection = c.grpcConnection ++ t := by
  unfold addPod
  cases he : c.functions.newGrpcClient (env.dial p.podIP) with
  | error e => exact ⟨[], by simp⟩
  | ok h => exact ⟨_, rfl⟩

/-- Auxiliary: folding `addPod` over any pod list only ever appends. -/
theorem foldl_addPod_appends (s n : String) (env : Env) :
    ∀ (pods : List Pod) (c : connection),
      ∃ t, (pods.foldl (addPod s n env) c).grpcConnection = c.grpcConnection ++ t := by
  intro pods
  induction pods with
  | nil => exact fun c => ⟨[], by simp⟩
  | cons p ps ih =>
    intro c
    obtain ⟨t1, h1⟩ := addPod_appends_aux s n env c p
    obtain ⟨t2, h2⟩ := ih (addPod s n env c p)
    exact ⟨t1 ++ t2, by rw [List.foldl_cons, h2, h1, List.append_assoc]⟩

/-- Claim C10: confirmed.  Whenever `updateConnectionPool` returns a pool, that
pool's collection is the input collection with some entries appended: no existing
entry is removed or replaced, so every connection that was a member before the call
is still a member after it, and stale addresses are never pruned by the full scan. -/
theorem updateConnectionPool_appends_only (s n : String) (env : Env)
    (cache c2 : connection)
    (h : updateConnectionPool s n env cache = PopulateResult.ok c2) :
    (∃ t, c2.grpcConnection = cache.grpcConnection ++ t) ∧
    ∀ gc, gc ∈ cache.grpcConnection → gc ∈ c2.grpcConnection := by
  unfold updateConnectionPool at h
  cases hg : getService s n env with
  | fatal => rw [hg] at h; exact PopulateResult.noConfusion h
  | notFound => rw [hg] at h; exact PopulateResult.noConfusion h
  | ok svc =>
    rw [hg] at h
    injection h with h2
    subst h2
    obtain ⟨t, ht⟩ := foldl_addPod_appends s n env (env.podsForSvc svc n) cache
    refine ⟨⟨t, ht⟩, ?_⟩
    intro gc hgc
    rw [ht]
    exact List.mem_append_left t hgc

/-- Witness for claim C10 at a concrete input: populating `poolA` under `envA`
yields `poolADup`, whose collection extends `poolA`'s, and `gA` stays a member. -/
theorem updateConnectionPool_appends_only_witness :
    (∃ t, poolADup.grpcConnection = poolA.grpcConnection ++ t) ∧
      gA ∈ poolADup.grpcConnection :=
  ⟨(updateConnectionPool_appends_only "s" "ns" envA poolA poolADup rfl).1,
   (updateConnectionPool_appends_only "s" "ns" envA poolA poolADup rfl).2 gA
     (List.mem_cons_self gA [])⟩
